import Mathlib

/-!
# Recurring-invoice engine: shallow embedding and verification

Shallow embedding of `src/client/src/services/recurringInvoices.ts`
(the RecurrenceEngine of the spec).  Calendar dates (the `yyyy-MM-dd`
strings handled by `date-fns` in the source) are embedded as `Date`
records of year/month/day in the proleptic Gregorian calendar; the
`date-fns` primitives `addDays`, `addWeeks`, `addMonths`, `addYears`
used by the source are embedded with their documented calendar
semantics (exact day arithmetic; month addition advances the month
index and clamps the day-of-month to the length of the target month).
The stateful scan `checkAndGenerateRecurringInvoices` is embedded as a
pure function from the store's responses (query result, per-iteration
write outcomes) to the trace of store operations it attempts.
-/

/-- A calendar date (year, month 1..12, day 1..31): the embedding of a
`yyyy-MM-dd` date string of the source. -/
structure Date where
  year : Int
  month : Int
  day : Int
deriving DecidableEq, Repr

/-- Proleptic Gregorian leap-year test. -/
def isLeap (y : Int) : Bool :=
  y % 4 == 0 && (!(y % 100 == 0) || y % 400 == 0)

/-- Number of days in a month of a given year. -/
def daysInMonth (y m : Int) : Int :=
  if m = 2 then (if isLeap y then 29 else 28)
  else if m = 4 ∨ m = 6 ∨ m = 9 ∨ m = 11 then 30
  else 31

/-- Validity of a calendar date. -/
def Date.Valid (d : Date) : Prop :=
  1 ≤ d.month ∧ d.month ≤ 12 ∧ 1 ≤ d.day ∧ d.day ≤ daysInMonth d.year d.month

instance (d : Date) : Decidable d.Valid := by
  unfold Date.Valid; infer_instance

/-- Day-of-year offset of the first day of a month, counted in the
March-based year (March = 0), as in the standard days-from-civil
algorithm. -/
def monthDoy (m : Int) : Int :=
  if m = 1 then 306 else if m = 2 then 337 else if m = 3 then 0
  else if m = 4 then 31 else if m = 5 then 61 else if m = 6 then 92
  else if m = 7 then 122 else if m = 8 then 153 else if m = 9 then 184
  else if m = 10 then 214 else if m = 11 then 245 else 275

/-- Days contributed by all years up to and including March-based year
`y`; `/` on `Int` is floor division for positive divisors. -/
def yearDays (y : Int) : Int := 365 * y + y / 4 - y / 100 + y / 400

/-- Serial day number of a date: days since 1970-01-01 (what
`getTime()` of the source yields for a midnight-aligned date, divided
by 86 400 000).  Standard days-from-civil formula. -/
def toDayNumber (d : Date) : Int :=
  (if d.month ≤ 2 then yearDays (d.year - 1) else yearDays d.year)
  + monthDoy d.month + d.day - 1 - 719468

/-- Whole-day distance from `a` to `b`: the embedding of
`(b.getTime() - a.getTime()) / 86400000` of the source for
midnight-aligned calendar dates (for such dates the quotient is an
exact integer, so the source's `Math.round` is the identity). -/
def daysBetween (a b : Date) : Int :=
  toDayNumber b - toDayNumber a

/-- Successor date: the next calendar day. -/
def nextDay (d : Date) : Date :=
  if d.day < daysInMonth d.year d.month then ⟨d.year, d.month, d.day + 1⟩
  else if d.month < 12 then ⟨d.year, d.month + 1, 1⟩
  else ⟨d.year + 1, 1, 1⟩

/-- Predecessor date: the previous calendar day. -/
def prevDay (d : Date) : Date :=
  if 1 < d.day then ⟨d.year, d.month, d.day - 1⟩
  else if 1 < d.month then ⟨d.year, d.month - 1, daysInMonth d.year (d.month - 1)⟩
  else ⟨d.year - 1, 12, 31⟩

/-- Iterated successor. -/
def addDaysNat (d : Date) : Nat → Date
  | 0 => d
  | n + 1 => nextDay (addDaysNat d n)

/-- Iterated predecessor. -/
def subDaysNat (d : Date) : Nat → Date
  | 0 => d
  | n + 1 => prevDay (subDaysNat d n)

/-- Embedding of `date-fns` `addDays`: move `n` calendar days (in
either direction) from `d`. -/
def addDays (d : Date) (n : Int) : Date :=
  if 0 ≤ n then addDaysNat d n.toNat else subDaysNat d (-n).toNat

/-- Total month count (months since year 0) reached by moving `k`
months from `d`; helper for `addMonths`. -/
def monthsTotal (d : Date) (k : Int) : Int := 12 * d.year + (d.month - 1) + k

/-- Year of the month reached by moving `k` months from `d`. -/
def targetYear (d : Date) (k : Int) : Int := monthsTotal d k / 12

/-- Month of the month reached by moving `k` months from `d`. -/
def targetMonth (d : Date) (k : Int) : Int := monthsTotal d k % 12 + 1

/-- Embedding of `date-fns` `addMonths`: advance the month index by
`k` and clamp the day-of-month to the length of the target month. -/
def addMonths (d : Date) (k : Int) : Date :=
  ⟨targetYear d k, targetMonth d k,
   min d.day (daysInMonth (targetYear d k) (targetMonth d k))⟩

/-- Embedding of `date-fns` `addYears`: advance the year by `k` and
clamp the day-of-month to the length of the target month (Feb 29 →
Feb 28 on non-leap targets). -/
def addYears (d : Date) (k : Int) : Date :=
  ⟨d.year + k, d.month, min d.day (daysInMonth (d.year + k) d.month)⟩

/-- Day number of the first day of the month with total month count
`t` (year `t / 12`, month `t % 12 + 1`). -/
def monthStart (t : Int) : Int := toDayNumber ⟨t / 12, t % 12 + 1, 1⟩

/-- Embedding of `generateNextInvoiceDate`
(`src/client/src/services/recurringInvoices.ts` lines 5-19): one
interval step from `currentDate`, dispatching on the interval tag;
unrecognized tags take the `default` branch, `addMonths(date, 1)`.
(`addWeeks(date, 1)` of the source is 7 days.) -/
def generateNextInvoiceDate (currentDate : Date) (interval : String) : Date :=
  if interval = "weekly" then addDays currentDate 7
  else if interval = "monthly" then addMonths currentDate 1
  else if interval = "quarterly" then addMonths currentDate 3
  else if interval = "yearly" then addYears currentDate 1
  else addMonths currentDate 1

/-- Embedding of `generateNextDueDate` (lines 21-29): the whole-day
difference from `previousIssueDate` to `previousDueDate` (exact for
midnight-aligned dates, so the source's `Math.round` is the
identity), applied to `issueDate` with `addDays`. -/
def generateNextDueDate (issueDate previousDueDate previousIssueDate : Date) : Date :=
  addDays issueDate (daysBetween previousIssueDate previousDueDate)

/-- An invoice row as returned by the store's query (the fields used
by the scan). -/
structure Invoice where
  id : Nat
  user_id : Nat
  project_id : Nat
  client_id : Nat
  invoice_number : String
  status : String
  issue_date : Date
  due_date : Date
  amount : Int
  paid_amount : Int
  is_recurring : Bool
  recurring_interval : String
  next_invoice_date : Date
deriving DecidableEq, Repr

/-- The record inserted by the scan (the object literal of lines
52-65; the store assigns `id`, so the payload has none). -/
structure NewInvoice where
  user_id : Nat
  project_id : Nat
  client_id : Nat
  invoice_number : String
  status : String
  issue_date : Date
  due_date : Date
  amount : Int
  paid_amount : Int
  is_recurring : Bool
  recurring_interval : String
  next_invoice_date : Date
deriving DecidableEq, Repr

/-- The row a stored `NewInvoice` becomes once the store assigns an
id. -/
def NewInvoice.withId (c : NewInvoice) (id : Nat) : Invoice :=
  { id := id, user_id := c.user_id, project_id := c.project_id,
    client_id := c.client_id, invoice_number := c.invoice_number,
    status := c.status, issue_date := c.issue_date, due_date := c.due_date,
    amount := c.amount, paid_amount := c.paid_amount,
    is_recurring := c.is_recurring,
    recurring_interval := c.recurring_interval,
    next_invoice_date := c.next_invoice_date }

/-- Outcome of one store write (the `error` field of the supabase
response being null or not). -/
inductive WriteOutcome where
  | ok
  | err
deriving DecidableEq, Repr

/-- Store behavior for one loop iteration: the outcomes of the insert
and the update, and the `Date.now().toString().slice(-6)` uniqueness
token observed at that iteration. -/
structure TemplateEnv where
  insertOutcome : WriteOutcome
  updateOutcome : WriteOutcome
  suffix : String
deriving DecidableEq, Repr

/-- A store operation attempted by the scan, with its outcome. -/
inductive StoreAction where
  | insert (rec : NewInvoice) (outcome : WriteOutcome)
  | update (id : Nat) (next_invoice_date : Date) (outcome : WriteOutcome)
deriving DecidableEq, Repr

/-- `invoice.invoice_number.split('-')[0]` of the source: the segment
of the string before the first `-` (the whole string when there is
none). -/
def numberStem (s : String) : String :=
  String.mk (s.data.takeWhile (fun c => c != '-'))

/-- The insert payload built for one template (lines 52-65). -/
def newChild (today : Date) (inv : Invoice) (suffix : String) : NewInvoice :=
  { user_id := inv.user_id
    project_id := inv.project_id
    client_id := inv.client_id
    invoice_number := numberStem inv.invoice_number ++ "-" ++ suffix
    status := "draft"
    issue_date := today
    due_date := generateNextDueDate today inv.due_date inv.issue_date
    amount := inv.amount
    paid_amount := 0
    is_recurring := true
    recurring_interval := inv.recurring_interval
    next_invoice_date := generateNextInvoiceDate today inv.recurring_interval }

/-- One iteration of the scan loop (lines 44-81): attempt the insert;
on insert error log and `continue` (no further operation for this
template); otherwise attempt the update of the template's
`next_invoice_date` (an update error is only logged). -/
def processTemplate (today : Date) (inv : Invoice) (e : TemplateEnv) : List StoreAction :=
  if e.insertOutcome = .err then
    [.insert (newChild today inv e.suffix) .err]
  else
    [.insert (newChild today inv e.suffix) .ok,
     .update inv.id (generateNextInvoiceDate today inv.recurring_interval)
       e.updateOutcome]

/-- The scan loop over the queried templates; `i` numbers the
iterations so each one draws its own store outcomes and time token. -/
def scanGo (today : Date) (env : Nat → TemplateEnv) : Nat → List Invoice → List StoreAction
  | _, [] => []
  | i, inv :: rest => processTemplate today inv (env i) ++ scanGo today env (i + 1) rest

/-- Embedding of `checkAndGenerateRecurringInvoices` (lines 31-85) as
the trace of store operations it attempts, given the store's query
response and per-iteration write outcomes.  A query error is thrown,
caught by the surrounding `try`/`catch` and logged, so the invocation
returns normally with no operation attempted. -/
def checkAndGenerateRecurringInvoices (today : Date)
    (queryResult : Except Unit (List Invoice)) (env : Nat → TemplateEnv) :
    List StoreAction :=
  match queryResult with
  | .error _ => []
  | .ok recurringInvoices => scanGo today env 0 recurringInvoices

/-- Chronological order on calendar dates (the order the store's
`lte` filter on `next_invoice_date` uses): lexicographic on
year, month, day. -/
def Date.le (a b : Date) : Prop :=
  a.year < b.year ∨ (a.year = b.year ∧
    (a.month < b.month ∨ (a.month = b.month ∧ a.day ≤ b.day)))

instance (a b : Date) : Decidable (Date.le a b) := by
  unfold Date.le; infer_instance

/-- The due-recurrence query filter of lines 35-39:
`is_recurring = true` and `next_invoice_date <= today`. -/
def dueFilter (today : Date) (inv : Invoice) : Bool :=
  inv.is_recurring && decide (Date.le inv.next_invoice_date today)

/-- The template row after the scan's update of its
`next_invoice_date` (lines 73-76). -/
def advanceTemplate (inv : Invoice) (nxt : Date) : Invoice :=
  { inv with next_invoice_date := nxt }

/-- The frame relation claimed by C3: the child agrees with the
template on every inserted field other than the date fields
(`issue_date`, `due_date`, `next_invoice_date`), `status`, and
`invoice_number`. -/
def FrameAgrees (t : Invoice) (c : NewInvoice) : Prop :=
  c.user_id = t.user_id ∧ c.project_id = t.project_id ∧
  c.client_id = t.client_id ∧ c.amount = t.amount ∧
  c.paid_amount = t.paid_amount ∧ c.is_recurring = t.is_recurring ∧
  c.recurring_interval = t.recurring_interval

instance (t : Invoice) (c : NewInvoice) : Decidable (FrameAgrees t c) := by
  unfold FrameAgrees; infer_instance

/-- Fixture: a monthly template (scenario 1 of the spec) that is
partially paid. -/
def sampleTemplate : Invoice :=
  { id := 1, user_id := 7, project_id := 3, client_id := 4,
    invoice_number := "INV-000001", status := "sent",
    issue_date := ⟨2024, 1, 1⟩, due_date := ⟨2024, 1, 31⟩,
    amount := 1500, paid_amount := 500, is_recurring := true,
    recurring_interval := "monthly", next_invoice_date := ⟨2024, 2, 1⟩ }

/-- Fixture: a second due template for the isolation scenario. -/
def sampleTemplate2 : Invoice :=
  { id := 2, user_id := 7, project_id := 3, client_id := 5,
    invoice_number := "ACME-000009", status := "sent",
    issue_date := ⟨2024, 1, 15⟩, due_date := ⟨2024, 1, 29⟩,
    amount := 800, paid_amount := 0, is_recurring := true,
    recurring_interval := "weekly", next_invoice_date := ⟨2024, 1, 31⟩ }

/-- Fixture: store behavior where every write succeeds. -/
def envAllOk : Nat → TemplateEnv := fun _ => ⟨.ok, .ok, "222222"⟩

/-- Fixture: store behavior where the first iteration's insert fails
and every later write succeeds. -/
def envFirstInsertFails : Nat → TemplateEnv :=
  fun i => if i = 0 then ⟨.err, .ok, "111111"⟩ else ⟨.ok, .ok, "222222"⟩

/-- Fixture: a single-iteration store behavior with a failing
insert. -/
def envErr : TemplateEnv := ⟨.err, .ok, "111111"⟩

theorem daysInMonth_pos (y m : Int) : 1 ≤ daysInMonth y m := by
  unfold daysInMonth; split_ifs <;> omega

theorem daysInMonth_le (y m : Int) : daysInMonth y m ≤ 31 := by
  unfold daysInMonth; split_ifs <;> omega

theorem valid_mk (y m dd : Int) :
    (Date.mk y m dd).Valid ↔ (1 ≤ m ∧ m ≤ 12 ∧ 1 ≤ dd ∧ dd ≤ daysInMonth y m) :=
  Iff.rfl

theorem isLeap_iff (y : Int) :
    isLeap y = true ↔ (y % 4 = 0 ∧ (¬ y % 100 = 0 ∨ y % 400 = 0)) := by
  simp [isLeap]

theorem yearDays_succ (y : Int) :
    yearDays y - yearDays (y - 1) = if isLeap y then 366 else 365 := by
  unfold yearDays
  split_ifs with h
  · rw [isLeap_iff] at h; omega
  · rw [isLeap_iff] at h; omega

theorem tdn_same_month (y m dd : Int) :
    toDayNumber ⟨y, m, dd + 1⟩ = toDayNumber ⟨y, m, dd⟩ + 1 := by
  simp only [toDayNumber]
  split_ifs <;> omega

theorem tdn_month_step (y m : Int) (h1 : 1 ≤ m) (h2 : m ≤ 11) :
    toDayNumber ⟨y, m + 1, 1⟩ = toDayNumber ⟨y, m, daysInMonth y m⟩ + 1 := by
  have hys := yearDays_succ y
  interval_cases m <;>
    simp only [toDayNumber, monthDoy, daysInMonth] <;>
    norm_num <;>
    split_ifs at * <;>
    omega

theorem tdn_year_step (y : Int) :
    toDayNumber ⟨y + 1, 1, 1⟩ = toDayNumber ⟨y, 12, 31⟩ + 1 := by
  have hy : y + 1 - 1 = y := by ring
  simp only [toDayNumber, monthDoy, daysInMonth]
  norm_num [hy]
  omega

theorem nextDay_valid {d : Date} (h : d.Valid) : (nextDay d).Valid := by
  obtain ⟨y, m, dd⟩ := d
  rw [valid_mk] at h
  obtain ⟨h1, h2, h3, h4⟩ := h
  have hpos := daysInMonth_pos y (m + 1)
  have hpos1 := daysInMonth_pos (y + 1) 1
  simp only [nextDay]
  split_ifs with h5 h6 <;> rw [valid_mk]
  · exact ⟨h1, h2, by omega, by omega⟩
  · exact ⟨by omega, by omega, by omega, by omega⟩
  · exact ⟨by omega, by omega, by omega, by omega⟩

theorem prevDay_valid {d : Date} (h : d.Valid) : (prevDay d).Valid := by
  obtain ⟨y, m, dd⟩ := d
  rw [valid_mk] at h
  obtain ⟨h1, h2, h3, h4⟩ := h
  have hpos := daysInMonth_pos y (m - 1)
  have hd31 : daysInMonth (y - 1) 12 = 31 := by simp [daysInMonth]
  simp only [prevDay]
  split_ifs with h5 h6 <;> rw [valid_mk]
  · exact ⟨h1, h2, by omega, by omega⟩
  · exact ⟨by omega, by omega, by omega, by omega⟩
  · exact ⟨by omega, by omega, by omega, by omega⟩

theorem toDayNumber_nextDay {d : Date} (h : d.Valid) :
    toDayNumber (nextDay d) = toDayNumber d + 1 := by
  obtain ⟨y, m, dd⟩ := d
  rw [valid_mk] at h
  obtain ⟨h1, h2, h3, h4⟩ := h
  simp only [nextDay]
  split_ifs with h5 h6
  · exact tdn_same_month y m dd
  · have hdd : dd = daysInMonth y m := by omega
    rw [hdd]
    exact tdn_month_step y m h1 (by omega)
  · have hm : m = 12 := by omega
    subst hm
    simp only [daysInMonth] at h4 h5
    norm_num at h4 h5
    have hdd : dd = 31 := by omega
    rw [hdd]
    exact tdn_year_step y

theorem toDayNumber_prevDay {d : Date} (h : d.Valid) :
    toDayNumber (prevDay d) = toDayNumber d - 1 := by
  obtain ⟨y, m, dd⟩ := d
  rw [valid_mk] at h
  obtain ⟨h1, h2, h3, h4⟩ := h
  simp only [prevDay]
  split_ifs with h5 h6
  · have := tdn_same_month y m (dd - 1)
    rw [show dd - 1 + 1 = dd from by ring] at this
    omega
  · have hdd : dd = 1 := by omega
    have := tdn_month_step y (m - 1) (by omega) (by omega)
    rw [show m - 1 + 1 = m from by ring] at this
    rw [hdd]
    omega
  · have hm : m = 1 := by omega
    have hdd : dd = 1 := by omega
    subst hm; subst hdd
    have := tdn_year_step (y - 1)
    rw [show y - 1 + 1 = y from by ring] at this
    omega

theorem addDaysNat_spec {d : Date} (h : d.Valid) (n : Nat) :
    (addDaysNat d n).Valid ∧ toDayNumber (addDaysNat d n) = toDayNumber d + n := by
  induction n with
  | zero => exact ⟨h, by simp [addDaysNat]⟩
  | succ k ih =>
    refine ⟨nextDay_valid ih.1, ?_⟩
    rw [addDaysNat, toDayNumber_nextDay ih.1, ih.2]
    push_cast; ring

theorem subDaysNat_spec {d : Date} (h : d.Valid) (n : Nat) :
    (subDaysNat d n).Valid ∧ toDayNumber (subDaysNat d n) = toDayNumber d - n := by
  induction n with
  | zero => exact ⟨h, by simp [subDaysNat]⟩
  | succ k ih =>
    refine ⟨prevDay_valid ih.1, ?_⟩
    rw [subDaysNat, toDayNumber_prevDay ih.1, ih.2]
    push_cast; ring

theorem addDays_valid {d : Date} (h : d.Valid) (n : Int) : (addDays d n).Valid := by
  unfold addDays
  split_ifs with hn
  · exact (addDaysNat_spec h _).1
  · exact (subDaysNat_spec h _).1

theorem toDayNumber_addDays {d : Date} (h : d.Valid) (n : Int) :
    toDayNumber (addDays d n) = toDayNumber d + n := by
  unfold addDays
  split_ifs with hn
  · rw [(addDaysNat_spec h n.toNat).2]; omega
  · rw [(subDaysNat_spec h (-n).toNat).2]; omega

theorem daysInMonth_ge_28 (y m : Int) : 28 ≤ daysInMonth y m := by
  unfold daysInMonth; split_ifs <;> omega

theorem tdn_day_linear (y m dd : Int) :
    toDayNumber ⟨y, m, dd⟩ = toDayNumber ⟨y, m, 1⟩ + dd - 1 := by
  simp only [toDayNumber]
  split_ifs <;> omega

theorem monthStart_succ (t : Int) :
    monthStart (t + 1) = monthStart t + daysInMonth (t / 12) (t % 12 + 1) := by
  rcases (by omega : t % 12 ≤ 10 ∨ t % 12 = 11) with h | h
  · have e1 : (t + 1) / 12 = t / 12 := by omega
    have e2 : (t + 1) % 12 + 1 = (t % 12 + 1) + 1 := by omega
    have hstep := tdn_month_step (t / 12) (t % 12 + 1) (by omega) (by omega)
    have hlin := tdn_day_linear (t / 12) (t % 12 + 1)
      (daysInMonth (t / 12) (t % 12 + 1))
    unfold monthStart
    rw [e1, e2]
    omega
  · have e1 : (t + 1) / 12 = t / 12 + 1 := by omega
    have e2 : (t + 1) % 12 + 1 = 1 := by omega
    have e3 : t % 12 + 1 = 12 := by omega
    have hstep := tdn_year_step (t / 12)
    have hlin := tdn_day_linear (t / 12) 12 31
    have hdim : daysInMonth (t / 12) 12 = 31 := by simp [daysInMonth]
    unfold monthStart
    rw [e1, e2, e3, hdim]
    omega

theorem monthStart_add_nat (t : Int) (n : Nat) :
    monthStart t + n ≤ monthStart (t + n) := by
  induction n with
  | zero => simp
  | succ k ih =>
    have hs := monthStart_succ (t + k)
    have hd := daysInMonth_pos ((t + (k : Int)) / 12) ((t + (k : Int)) % 12 + 1)
    have e : (t : Int) + ((k + 1 : Nat) : Int) = (t + (k : Int)) + 1 := by
      push_cast; ring
    rw [e, hs]
    push_cast at ih ⊢
    omega

theorem monthStart_mono {t u : Int} (h : t ≤ u) : monthStart t ≤ monthStart u := by
  have hn := monthStart_add_nat t (u - t).toNat
  have e : (((u - t).toNat : Nat) : Int) = u - t := by omega
  rw [e] at hn
  have e2 : t + (u - t) = u := by ring
  rw [e2] at hn
  omega

theorem addMonths_valid {d : Date} (h : d.Valid) (k : Int) : (addMonths d k).Valid := by
  obtain ⟨y, m, dd⟩ := d
  rw [valid_mk] at h
  simp only [addMonths, targetYear, targetMonth, monthsTotal]
  rw [valid_mk]
  have hp := daysInMonth_pos ((12 * y + (m - 1) + k) / 12)
    ((12 * y + (m - 1) + k) % 12 + 1)
  refine ⟨by omega, by omega, by omega, by omega⟩

theorem tdn_lt_addMonths {d : Date} (h : d.Valid) {k : Int} (hk : 1 ≤ k) :
    toDayNumber d < toDayNumber (addMonths d k) := by
  obtain ⟨y, m, dd⟩ := d
  rw [valid_mk] at h
  obtain ⟨h1, h2, h3, h4⟩ := h
  have e1 : (12 * y + (m - 1)) / 12 = y := by omega
  have e2 : (12 * y + (m - 1)) % 12 + 1 = m := by omega
  have hlin := tdn_day_linear y m dd
  have hms : monthStart (12 * y + (m - 1)) = toDayNumber ⟨y, m, 1⟩ := by
    unfold monthStart; rw [e1, e2]
  have hsucc := monthStart_succ (12 * y + (m - 1))
  rw [e1, e2] at hsucc
  have hmono : monthStart (12 * y + (m - 1) + 1) ≤ monthStart (12 * y + (m - 1) + k) :=
    monthStart_mono (by omega)
  simp only [addMonths, targetYear, targetMonth, monthsTotal]
  have hlin2 := tdn_day_linear ((12 * y + (m - 1) + k) / 12)
    ((12 * y + (m - 1) + k) % 12 + 1)
    (min dd (daysInMonth ((12 * y + (m - 1) + k) / 12)
      ((12 * y + (m - 1) + k) % 12 + 1)))
  have hms2 : monthStart (12 * y + (m - 1) + k)
      = toDayNumber ⟨(12 * y + (m - 1) + k) / 12, (12 * y + (m - 1) + k) % 12 + 1, 1⟩ :=
    rfl
  have hp := daysInMonth_pos ((12 * y + (m - 1) + k) / 12)
    ((12 * y + (m - 1) + k) % 12 + 1)
  omega

theorem addYears_one {d : Date} (h : d.Valid) : addYears d 1 = addMonths d 12 := by
  obtain ⟨y, m, dd⟩ := d
  rw [valid_mk] at h
  obtain ⟨h1, h2, h3, h4⟩ := h
  have e1 : (12 * y + (m - 1) + 12) / 12 = y + 1 := by omega
  have e2 : (12 * y + (m - 1) + 12) % 12 + 1 = m := by omega
  simp only [addYears, addMonths, targetYear, targetMonth, monthsTotal, e1, e2]

theorem gnid_weekly (d : Date) : generateNextInvoiceDate d "weekly" = addDays d 7 := by
  simp [generateNextInvoiceDate]

theorem gnid_monthly (d : Date) : generateNextInvoiceDate d "monthly" = addMonths d 1 := by
  simp [generateNextInvoiceDate]

theorem gnid_quarterly (d : Date) :
    generateNextInvoiceDate d "quarterly" = addMonths d 3 := by
  simp [generateNextInvoiceDate]

theorem gnid_yearly (d : Date) : generateNextInvoiceDate d "yearly" = addYears d 1 := by
  simp [generateNextInvoiceDate]

theorem gnid_fallback (d : Date) (s : String) (h1 : s ≠ "weekly") (h2 : s ≠ "monthly")
    (h3 : s ≠ "quarterly") (h4 : s ≠ "yearly") :
    generateNextInvoiceDate d s = addMonths d 1 := by
  unfold generateNextInvoiceDate
  rw [if_neg h1, if_neg h2, if_neg h3, if_neg h4]

/-- C1: for every triple of valid calendar dates, `computeNextDueDate`
(source: `generateNextDueDate`) returns a date whose whole-day
distance from the new issue date equals the whole-day distance from
the previous issue date to the previous due date, across month/year
boundaries and leap years; the function is a pure function of its
three arguments. -/
theorem c1_generateNextDueDate_preserves_offset (newIssue prevDue prevIssue : Date)
    (h1 : newIssue.Valid) (_h2 : prevDue.Valid) (_h3 : prevIssue.Valid) :
    daysBetween newIssue (generateNextDueDate newIssue prevDue prevIssue)
      = daysBetween prevIssue prevDue := by
  unfold generateNextDueDate daysBetween
  rw [toDayNumber_addDays h1]
  ring

/-- Witness for C1 at a concrete leap-February triple. -/
theorem c1_generateNextDueDate_preserves_offset_witness :
    daysBetween ⟨2024, 2, 1⟩ (generateNextDueDate ⟨2024, 2, 1⟩ ⟨2024, 1, 31⟩ ⟨2024, 1, 1⟩)
      = daysBetween ⟨2024, 1, 1⟩ ⟨2024, 1, 31⟩ :=
  c1_generateNextDueDate_preserves_offset ⟨2024, 2, 1⟩ ⟨2024, 1, 31⟩ ⟨2024, 1, 1⟩
    (by decide) (by decide) (by decide)

/-- C2: `computeNextOccurrenceDate` (source: `generateNextInvoiceDate`)
adds exactly one unit of the interval — 7 days for `weekly`, 1
calendar month for `monthly`, 3 for `quarterly`, 1 calendar year for
`yearly` (month index advances by 1, 3, 12 respectively; the year
step keeps the month) — and every other interval tag yields the
monthly step. -/
theorem c2_generateNextInvoiceDate_one_interval_step (d : Date) (h : d.Valid) :
    daysBetween d (generateNextInvoiceDate d "weekly") = 7
    ∧ generateNextInvoiceDate d "monthly" = addMonths d 1
    ∧ 12 * (addMonths d 1).year + (addMonths d 1).month = 12 * d.year + d.month + 1
    ∧ generateNextInvoiceDate d "quarterly" = addMonths d 3
    ∧ 12 * (addMonths d 3).year + (addMonths d 3).month = 12 * d.year + d.month + 3
    ∧ generateNextInvoiceDate d "yearly" = addYears d 1
    ∧ (addYears d 1).year = d.year + 1
    ∧ (addYears d 1).month = d.month
    ∧ ∀ s : String, s ≠ "weekly" → s ≠ "monthly" → s ≠ "quarterly" → s ≠ "yearly" →
        generateNextInvoiceDate d s = addMonths d 1 := by
  refine ⟨?_, gnid_monthly d, ?_, gnid_quarterly d, ?_, gnid_yearly d, ?_, ?_,
    gnid_fallback d⟩
  · rw [gnid_weekly]
    unfold daysBetween
    rw [toDayNumber_addDays h]
    ring
  · simp only [addMonths, targetYear, targetMonth, monthsTotal]
    omega
  · simp only [addMonths, targetYear, targetMonth, monthsTotal]
    omega
  · simp [addYears]
  · simp [addYears]

/-- Witness for C2: weekly step and the unrecognized tag `biweekly` at
2024-01-31. -/
theorem c2_generateNextInvoiceDate_one_interval_step_witness :
    daysBetween ⟨2024, 1, 31⟩ (generateNextInvoiceDate ⟨2024, 1, 31⟩ "weekly") = 7
    ∧ generateNextInvoiceDate ⟨2024, 1, 31⟩ "biweekly" = addMonths ⟨2024, 1, 31⟩ 1 :=
  ⟨(c2_generateNextInvoiceDate_one_interval_step ⟨2024, 1, 31⟩ (by decide)).1,
   (c2_generateNextInvoiceDate_one_interval_step ⟨2024, 1, 31⟩
     (by decide)).2.2.2.2.2.2.2.2 "biweekly" (by decide) (by decide) (by decide)
     (by decide)⟩

/-- C8: for every valid date and every interval tag (recognized or
not), `computeNextOccurrenceDate` returns a date strictly after its
input. -/
theorem c8_generateNextInvoiceDate_strictly_advances (d : Date) (h : d.Valid)
    (interval : String) :
    toDayNumber d < toDayNumber (generateNextInvoiceDate d interval) := by
  unfold generateNextInvoiceDate
  split_ifs
  · rw [toDayNumber_addDays h]; omega
  · exact tdn_lt_addMonths h (by omega)
  · exact tdn_lt_addMonths h (by omega)
  · rw [addYears_one h]; exact tdn_lt_addMonths h (by omega)
  · exact tdn_lt_addMonths h (by omega)

/-- Witness for C8 at 2024-12-31 with an unrecognized tag. -/
theorem c8_generateNextInvoiceDate_strictly_advances_witness :
    toDayNumber ⟨2024, 12, 31⟩
      < toDayNumber (generateNextInvoiceDate ⟨2024, 12, 31⟩ "biweekly") :=
  c8_generateNextInvoiceDate_strictly_advances ⟨2024, 12, 31⟩ (by decide) "biweekly"

/-- C9: the month-overflow convention is clamp-to-end-of-month: when
the source day exceeds the target month's length, the monthly step
(and the unrecognized-tag fallback), the quarterly step, and the
yearly step from Feb 29 all land on the last day of the target
month. -/
theorem c9_month_overflow_clamps_to_month_end (d : Date) (h : d.Valid) :
    (daysInMonth (targetYear d 1) (targetMonth d 1) < d.day →
      generateNextInvoiceDate d "monthly"
        = ⟨targetYear d 1, targetMonth d 1, daysInMonth (targetYear d 1) (targetMonth d 1)⟩
      ∧ ∀ s : String, s ≠ "weekly" → s ≠ "monthly" → s ≠ "quarterly" → s ≠ "yearly" →
          generateNextInvoiceDate d s
            = ⟨targetYear d 1, targetMonth d 1, daysInMonth (targetYear d 1) (targetMonth d 1)⟩)
    ∧ (daysInMonth (targetYear d 3) (targetMonth d 3) < d.day →
      generateNextInvoiceDate d "quarterly"
        = ⟨targetYear d 3, targetMonth d 3, daysInMonth (targetYear d 3) (targetMonth d 3)⟩)
    ∧ (d.month = 2 → d.day = 29 →
      generateNextInvoiceDate d "yearly" = ⟨d.year + 1, 2, 28⟩) := by
  refine ⟨fun h1 => ⟨?_, fun s hs1 hs2 hs3 hs4 => ?_⟩, fun h3 => ?_, fun hm hd => ?_⟩
  · rw [gnid_monthly]
    unfold addMonths
    rw [min_eq_right (by omega)]
  · rw [gnid_fallback d s hs1 hs2 hs3 hs4]
    unfold addMonths
    rw [min_eq_right (by omega)]
  · rw [gnid_quarterly]
    unfold addMonths
    rw [min_eq_right (by omega)]
  · rw [gnid_yearly]
    obtain ⟨y, m, dd⟩ := d
    rw [valid_mk] at h
    dsimp only at hm hd
    subst hm; subst hd
    have h29 : (29 : Int) ≤ daysInMonth y 2 := h.2.2.2
    have hly : isLeap y = true := by
      by_contra hb
      have hb' : isLeap y = false := by
        cases hx : isLeap y
        · rfl
        · exact absurd hx hb
      have hdm : daysInMonth y 2 = 28 := by simp [daysInMonth, hb']
      omega
    have hly1 : ¬ (isLeap (y + 1) = true) := by
      rw [isLeap_iff] at hly ⊢
      omega
    unfold addYears
    dsimp only
    simp only [daysInMonth, if_pos rfl, if_neg hly1]
    norm_num

/-- Witness for C9: the three clamp examples — monthly from
2024-01-31, quarterly from 2024-03-31, yearly from 2024-02-29. -/
theorem c9_month_overflow_clamps_to_month_end_witness :
    generateNextInvoiceDate ⟨2024, 1, 31⟩ "monthly" = ⟨2024, 2, 29⟩
    ∧ generateNextInvoiceDate ⟨2024, 3, 31⟩ "quarterly" = ⟨2024, 6, 30⟩
    ∧ generateNextInvoiceDate ⟨2024, 2, 29⟩ "yearly" = ⟨2025, 2, 28⟩ := by
  refine ⟨?_, ?_, ?_⟩
  · rw [((c9_month_overflow_clamps_to_month_end ⟨2024, 1, 31⟩ (by decide)).1
      (by decide)).1]
    decide
  · rw [(c9_month_overflow_clamps_to_month_end ⟨2024, 3, 31⟩ (by decide)).2.1
      (by decide)]
    decide
  · rw [(c9_month_overflow_clamps_to_month_end ⟨2024, 2, 29⟩ (by decide)).2.2
      (by decide) (by decide)]
    decide

theorem scanGo_append (today : Date) (env : Nat → TemplateEnv) (i : Nat)
    (a b : List Invoice) :
    scanGo today env i (a ++ b)
      = scanGo today env i a ++ scanGo today env (i + a.length) b := by
  induction a generalizing i with
  | nil => simp [scanGo]
  | cons x xs ih =>
    show processTemplate today x (env i) ++ scanGo today env (i + 1) (xs ++ b)
        = (processTemplate today x (env i) ++ scanGo today env (i + 1) xs)
          ++ scanGo today env (i + (xs.length + 1)) b
    rw [ih (i + 1), List.append_assoc]
    have e : i + 1 + xs.length = i + (xs.length + 1) := by omega
    rw [e]

theorem scanGo_congr (today : Date) (env env' : Nat → TemplateEnv)
    (l : List Invoice) (i : Nat) (h : ∀ j, i ≤ j → env j = env' j) :
    scanGo today env i l = scanGo today env' i l := by
  induction l generalizing i with
  | nil => rfl
  | cons x xs ih =>
    simp only [scanGo]
    rw [h i le_rfl, ih (i + 1) (fun j hj => h j (by omega))]

/-- C3 counterexample: the template is partially paid
(`paid_amount = 500`), but the scan inserts the child with
`paid_amount = 0`, so the child does not agree with the template on
every field besides the date fields, `status`, and
`invoice_number`. -/
theorem c3_frame_counterexample :
    ¬ FrameAgrees sampleTemplate (newChild ⟨2024, 2, 1⟩ sampleTemplate "222222") := by
  intro h
  exact absurd h.2.2.2.2.1 (by decide)

/-- C3 (amended): the inserted child agrees with the template on
`user_id`, `project_id`, `client_id`, `amount`, `is_recurring`, and
`recurring_interval`; `paid_amount` is reset to 0 (so it can differ
from the template's); only the date fields, `status`,
`invoice_number`, and `paid_amount` can differ. -/
theorem c3_frame_of_generated_child (today : Date) (t : Invoice) (suffix : String)
    (hrec : t.is_recurring = true) :
    (newChild today t suffix).user_id = t.user_id
    ∧ (newChild today t suffix).project_id = t.project_id
    ∧ (newChild today t suffix).client_id = t.client_id
    ∧ (newChild today t suffix).amount = t.amount
    ∧ (newChild today t suffix).is_recurring = t.is_recurring
    ∧ (newChild today t suffix).recurring_interval = t.recurring_interval
    ∧ (newChild today t suffix).paid_amount = 0 :=
  ⟨rfl, rfl, rfl, rfl, hrec.symm, rfl, rfl⟩

/-- Witness for the amended C3 at the sample template. -/
theorem c3_frame_of_generated_child_witness :
    (newChild ⟨2024, 2, 1⟩ sampleTemplate "222222").amount = sampleTemplate.amount
    ∧ (newChild ⟨2024, 2, 1⟩ sampleTemplate "222222").paid_amount = 0 :=
  ⟨(c3_frame_of_generated_child ⟨2024, 2, 1⟩ sampleTemplate "222222" rfl).2.2.2.1,
   (c3_frame_of_generated_child ⟨2024, 2, 1⟩ sampleTemplate "222222" rfl).2.2.2.2.2.2⟩

set_option maxRecDepth 8000 in
/-- C4: scenario 1 — the monthly template (issue 2024-01-01, due
2024-01-31, next 2024-02-01) is due on 2024-02-01, and the scan run
that day inserts a child with issue 2024-02-01, due 2024-03-02 and
updates the template's `next_invoice_date` to 2024-03-01. -/
theorem c4_scenario_monthly_template :
    dueFilter ⟨2024, 2, 1⟩ sampleTemplate = true
    ∧ checkAndGenerateRecurringInvoices ⟨2024, 2, 1⟩ (.ok [sampleTemplate]) envAllOk
      = [.insert (newChild ⟨2024, 2, 1⟩ sampleTemplate "222222") .ok,
         .update 1 ⟨2024, 3, 1⟩ .ok]
    ∧ (newChild ⟨2024, 2, 1⟩ sampleTemplate "222222").issue_date = ⟨2024, 2, 1⟩
    ∧ (newChild ⟨2024, 2, 1⟩ sampleTemplate "222222").due_date = ⟨2024, 3, 2⟩
    ∧ (newChild ⟨2024, 2, 1⟩ sampleTemplate "222222").next_invoice_date = ⟨2024, 3, 1⟩ := by
  refine ⟨by decide, by decide, by decide, by decide, by decide⟩

/-- C5: a per-template write failure does not abort the rest of the
scan: the trace of a scan over `l1 ++ l2` is the trace over `l1`
followed by the trace over `l2`, and the `l2` part is the same for
any two store behaviors that agree from position `|l1|` on, whatever
failures they produce on `l1`'s templates. -/
theorem c5_write_failure_isolated (today : Date) (l1 l1' l2 : List Invoice)
    (env env' : Nat → TemplateEnv)
    (hlen : l1.length = l1'.length)
    (henv : ∀ i, l1.length ≤ i → env i = env' i) :
    checkAndGenerateRecurringInvoices today (.ok (l1 ++ l2)) env
      = checkAndGenerateRecurringInvoices today (.ok l1) env
        ++ scanGo today env l1.length l2
    ∧ checkAndGenerateRecurringInvoices today (.ok (l1' ++ l2)) env'
      = checkAndGenerateRecurringInvoices today (.ok l1') env'
        ++ scanGo today env l1.length l2 := by
  constructor
  · simp only [checkAndGenerateRecurringInvoices]
    rw [scanGo_append]
    simp
  · simp only [checkAndGenerateRecurringInvoices]
    rw [scanGo_append]
    simp only [Nat.zero_add]
    rw [← hlen]
    rw [scanGo_congr today env' env l2 l1.length (fun j hj => (henv j hj).symm)]

/-- Witness for C5: two due templates, the first iteration's insert
fails; the second template's part of the trace is the same as under
the all-successful behavior. -/
theorem c5_write_failure_isolated_witness :
    checkAndGenerateRecurringInvoices ⟨2024, 2, 1⟩
        (.ok ([sampleTemplate] ++ [sampleTemplate2])) envFirstInsertFails
      = checkAndGenerateRecurringInvoices ⟨2024, 2, 1⟩ (.ok [sampleTemplate])
          envFirstInsertFails
        ++ scanGo ⟨2024, 2, 1⟩ envFirstInsertFails 1 [sampleTemplate2]
    ∧ checkAndGenerateRecurringInvoices ⟨2024, 2, 1⟩
        (.ok ([sampleTemplate] ++ [sampleTemplate2])) envAllOk
      = checkAndGenerateRecurringInvoices ⟨2024, 2, 1⟩ (.ok [sampleTemplate]) envAllOk
        ++ scanGo ⟨2024, 2, 1⟩ envFirstInsertFails 1 [sampleTemplate2] :=
  c5_write_failure_isolated ⟨2024, 2, 1⟩ [sampleTemplate] [sampleTemplate]
    [sampleTemplate2] envFirstInsertFails envAllOk rfl
    (fun i hi => by
      simp only [List.length_cons, List.length_nil] at hi
      unfold envFirstInsertFails envAllOk
      rw [if_neg (by omega)])

/-- C6: an update of the template's `next_invoice_date` is attempted
only when the insert succeeded; on insert failure the iteration's
whole trace is the single failed insert, so the template row is left
untouched. -/
theorem c6_update_only_after_successful_insert (today : Date) (inv : Invoice)
    (e : TemplateEnv) :
    (∀ idv nxt o, StoreAction.update idv nxt o ∈ processTemplate today inv e →
      e.insertOutcome = .ok)
    ∧ (e.insertOutcome = .err →
      processTemplate today inv e = [.insert (newChild today inv e.suffix) .err]) := by
  constructor
  · intro idv nxt o hmem
    unfold processTemplate at hmem
    split_ifs at hmem with he
    · simp at hmem
    · cases ho : e.insertOutcome
      · rfl
      · exact absurd ho he
  · intro ho
    unfold processTemplate
    rw [if_pos ho]

/-- Witness for C6: a failing insert leaves a trace with no update. -/
theorem c6_update_only_after_successful_insert_witness :
    processTemplate ⟨2024, 2, 1⟩ sampleTemplate envErr
      = [.insert (newChild ⟨2024, 2, 1⟩ sampleTemplate "111111") .err] :=
  (c6_update_only_after_successful_insert ⟨2024, 2, 1⟩ sampleTemplate envErr).2 rfl

/-- C7: when the due-recurrence query fails, the scan attempts no
store operation at all (the thrown error is caught and logged inside
the function, which returns normally). -/
theorem c7_query_failure_aborts_scan (today : Date) (env : Nat → TemplateEnv) :
    checkAndGenerateRecurringInvoices today (.error ()) env = [] :=
  rfl

/-- C10: the inserted child has `is_recurring = true` and carries the
very `next_invoice_date` written back to the template, so from any
scan day at or after that date both the stored child and the updated
template pass the due-query filter. -/
theorem c10_child_is_again_a_due_template (today : Date) (inv : Invoice)
    (e : TemplateEnv) (newId : Nat)
    (hrec : inv.is_recurring = true) (hok : e.insertOutcome = .ok) :
    (newChild today inv e.suffix).is_recurring = true
    ∧ (newChild today inv e.suffix).next_invoice_date
        = generateNextInvoiceDate today inv.recurring_interval
    ∧ StoreAction.update inv.id (generateNextInvoiceDate today inv.recurring_interval)
        e.updateOutcome ∈ processTemplate today inv e
    ∧ ∀ later : Date,
        Date.le (generateNextInvoiceDate today inv.recurring_interval) later →
        dueFilter later ((newChild today inv e.suffix).withId newId) = true
        ∧ dueFilter later
            (advanceTemplate inv
              (generateNextInvoiceDate today inv.recurring_interval)) = true := by
  refine ⟨rfl, rfl, ?_, fun later hle => ⟨?_, ?_⟩⟩
  · unfold processTemplate
    rw [if_neg (by rw [hok]; exact fun hx => WriteOutcome.noConfusion hx)]
    simp
  · simp [dueFilter, NewInvoice.withId, newChild, hle]
  · simp [dueFilter, advanceTemplate, hrec, hle]

/-- Witness for C10 at the sample template: the stored child passes
the due filter on the written-back date 2024-03-01. -/
theorem c10_child_is_again_a_due_template_witness :
    (newChild ⟨2024, 2, 1⟩ sampleTemplate "222222").is_recurring = true
    ∧ dueFilter ⟨2024, 3, 1⟩
        ((newChild ⟨2024, 2, 1⟩ sampleTemplate "222222").withId 99) = true :=
  ⟨(c10_child_is_again_a_due_template ⟨2024, 2, 1⟩ sampleTemplate (envAllOk 0) 99
      rfl rfl).1,
   ((c10_child_is_again_a_due_template ⟨2024, 2, 1⟩ sampleTemplate (envAllOk 0) 99
      rfl rfl).2.2.2 ⟨2024, 3, 1⟩ (by decide)).1⟩
